import Mathlib

/-!
Verification of the vendor CLI command handlers and session-socket state
machine of the OpenThread posix daemon (`src/posix/platform/daemon.cpp`).

The C functions are shallowly embedded as pure Lean functions.  Machine
integers are modelled as `Nat`/`Int` with explicit `% 256` (resp. `% 65536`)
wrapping at every point where the C code performs a conversion to
`uint8_t`/`int8_t`/`uint16_t`.  The radio transport primitive
`otPlatRadioMfgCommand` is modelled as an oracle function from the request
frame to the (response-buffer contents, outputLen) pair; every embedded
handler additionally records the list of frames it hands to the transport,
and the CLI output it produces, so that "no transport call is made" and
"prints X" become provable statements.
-/

/-- The `otError` codes used by the daemon handlers. -/
inductive OtError where
  | OT_ERROR_NONE
  | OT_ERROR_FAILED
  | OT_ERROR_INVALID_ARGS
  | OT_ERROR_NOT_IMPLEMENTED
  deriving DecidableEq, Repr

/-- C conversion of an `int` value to `uint8_t` (wraps modulo 256). -/
def toUint8 (i : Int) : Nat := (i % 256).toNat

/-- C conversion of an `int` value to `int8_t` (two's-complement wrap). -/
def toInt8 (i : Int) : Int := if i % 256 < 128 then i % 256 else i % 256 - 256

/-- C conversion of a value to `uint16_t` (wraps modulo 65536). -/
def toUint16 (i : Int) : Nat := (i % 65536).toNat

/-- The whitespace characters skipped by C `atoi`/`strtol`. -/
def isSpaceChar (c : Char) : Bool :=
  c = ' ' || c = '\t' || c = '\n' || c = '\x0b' || c = '\x0c' || c = '\r'

/-- Accumulate a run of leading decimal digits, as `atoi` does. -/
def decDigitsVal : List Char → Int → Int
  | c :: cs, acc =>
    if '0' ≤ c ∧ c ≤ '9' then decDigitsVal cs (acc * 10 + ((c.toNat : Int) - ('0'.toNat : Int)))
    else acc
  | [], acc => acc

/-- C `atoi` on a character list: skip whitespace, optional sign, digits. -/
def atoiChars (cs : List Char) : Int :=
  match cs.dropWhile isSpaceChar with
  | '-' :: rest => - decDigitsVal rest 0
  | '+' :: rest => decDigitsVal rest 0
  | rest => decDigitsVal rest 0

/-- C `atoi` applied to a CLI argument string. -/
def atoi (s : String) : Int := atoiChars s.data

/-- Value of one hexadecimal digit character, `none` on a non-hex character.
Mirrors the three comparison ranges in `ProcessSetEui64` and the digit set
accepted by `strtol(.., 16)`. -/
def hexNibble (c : Char) : Option Nat :=
  if '0' ≤ c ∧ c ≤ '9' then some (c.toNat - '0'.toNat)
  else if 'a' ≤ c ∧ c ≤ 'f' then some (c.toNat - 'a'.toNat + 10)
  else if 'A' ≤ c ∧ c ≤ 'F' then some (c.toNat - 'A'.toNat + 10)
  else none

/-- Accumulate a run of leading hexadecimal digits (for `strtol` base 16). -/
def hexDigitsVal : List Char → Int → Int
  | c :: cs, acc =>
    match hexNibble c with
    | some v => hexDigitsVal cs (acc * 16 + (v : Int))
    | none => acc
  | [], acc => acc

/-- C `strtol(s, NULL, 16)`: whitespace, optional sign, optional `0x`/`0X`
prefix, hex digits. -/
def strtol16 (s : String) : Int :=
  match s.data.dropWhile isSpaceChar with
  | '-' :: '0' :: 'x' :: rest => - hexDigitsVal rest 0
  | '-' :: '0' :: 'X' :: rest => - hexDigitsVal rest 0
  | '-' :: rest => - hexDigitsVal rest 0
  | '+' :: '0' :: 'x' :: rest => hexDigitsVal rest 0
  | '+' :: '0' :: 'X' :: rest => hexDigitsVal rest 0
  | '+' :: rest => hexDigitsVal rest 0
  | '0' :: 'x' :: rest => hexDigitsVal rest 0
  | '0' :: 'X' :: rest => hexDigitsVal rest 0
  | rest => hexDigitsVal rest 0

/-! ## Manufacturing-command opcodes and frames -/

def MFG_CMD_ACTION_GET : Nat := 0
def MFG_CMD_ACTION_SET : Nat := 1

def MFG_CMD_GET_SET_CHANNEL : Nat := 0x0b
def MFG_CMD_GET_SET_TXPOWER : Nat := 0x0f
def MFG_CMD_CONTINUOUS_TX : Nat := 0x11
def MFG_CMD_GET_SET_PAYLOAD_SIZE : Nat := 0x14
def MFG_CMD_GET_RX_RESULT : Nat := 0x1f
def MFG_CMD_START_RX_TEST : Nat := 0x20
def MFG_CMD_BURST_TX : Nat := 0x21
def MFG_CMD_DUTY_CYCLE_TX : Nat := 0x23
def MFG_CMD_GET_SET_CCA_THRESHOLD : Nat := 0x2F
def MFG_CMD_CONTINOUS_CCA_TEST : Nat := 0x31
def MFG_CMD_GET_CCA_STATUS : Nat := 0x32
def MFG_CMD_CONTINOUS_ED_TEST : Nat := 0x37
def MFG_CMD_GET_ED_VALUE : Nat := 0x38
def MFG_CMD_PHY_TX_TEST_PSDU : Nat := 0x39
def MFG_CMD_PHY_RX_TX_ACK_TEST : Nat := 0x3A
def MFG_CMD_SET_GENERIC_PARAM : Nat := 0x3B

/-- The initial 12-byte payload buffer `uint8_t payload[12] = {11}`:
byte 0 is the length marker 11, the rest are zero-filled. -/
def mfgBaseFrame : List Nat := [11, 0, 0, 0, 0, 0, 0, 0, 0, 0, 0, 0]

/-- The radio transport oracle `otPlatRadioMfgCommand`: maps the request
frame to the contents of the payload buffer after the call together with
the reported `outputLen`. -/
def Radio : Type := List Nat → List Nat × Nat

/-- A GET frame: `payload[1] = cmdId; payload[2] = MFG_CMD_ACTION_GET`. -/
def mfgGetFrame (cmdId : Nat) : List Nat :=
  (mfgBaseFrame.set 1 cmdId).set 2 MFG_CMD_ACTION_GET

/-- A SET frame with one data byte:
`payload[1] = cmdId; payload[2] = MFG_CMD_ACTION_SET; payload[4] = b4`. -/
def mfgSetFrame (cmdId : Nat) (b4 : Nat) : List Nat :=
  ((mfgBaseFrame.set 1 cmdId).set 2 MFG_CMD_ACTION_SET).set 4 b4

/-- The TX-power encoding `payload[4] = ((uint8_t)setValue) << 1`
(dBm to half-dBm), stored into a `uint8_t`. -/
def txPowerEncode (v : Int) : Nat := (toUint8 v * 2) % 256

/-- The TX-power decoding `((int8_t)payload[4]) / 2` (half-dBm to dBm),
with C truncating division. -/
def txPowerDecode (b : Nat) : Int := Int.tdiv (toInt8 (b : Int)) 2

/-! ## CLI output events -/

/-- One piece of CLI output produced through `otCliOutputFormat`. -/
inductive CliOut where
  /-- A printed decimal number (`"%d\r\n"`). -/
  | num (n : Int)
  /-- The "MFG command not enabled" message. -/
  | notEnabled
  /-- The "NOT IMPLEMENTED" message. -/
  | notImplemented
  /-- The "FAILED" message. -/
  | failedMsg
  /-- The five lines printed by the RX-result query. -/
  | rxResult (status rxPkt totalPkt : Nat) (rssi : Int) (lqi : Nat)
  /-- The raw response bytes echoed by the raw-passthrough path. -/
  | rawEcho (bytes : List Nat)
  deriving DecidableEq, Repr

/-- Result of one mfg sub-handler: status, transport frames sent, output. -/
structure MfgResult where
  error : OtError
  calls : List (List Nat)
  output : List CliOut
  deriving DecidableEq, Repr

/-- `ProcessMfgGetInt8`: on exactly one CLI argument, send a GET frame and,
when the response has `outputLen >= 5` and status byte `payload[3] == 0`,
print the signed data byte (halved for the TX-power opcode). -/
def ProcessMfgGetInt8 (cmdId : Nat) (aArgsLength : Nat) (radio : Radio) : MfgResult :=
  if aArgsLength = 1 then
    let frame := mfgGetFrame cmdId
    let resp := radio frame
    if 5 ≤ resp.2 ∧ resp.1.getD 3 0 = 0 then
      { error := .OT_ERROR_NONE, calls := [frame],
        output := [.num (if cmdId = MFG_CMD_GET_SET_TXPOWER then
                           txPowerDecode (resp.1.getD 4 0)
                         else toInt8 (resp.1.getD 4 0))] }
    else
      { error := .OT_ERROR_FAILED, calls := [frame], output := [] }
  else
    { error := .OT_ERROR_INVALID_ARGS, calls := [], output := [] }

/-- `ProcessMfgSetInt8`: on exactly two CLI arguments, parse
`setValue = (int8_t)atoi(aArgs[1])`, range-check it against `[min, max]`,
and only then send a SET frame; success requires `outputLen >= 4` and
status byte `payload[3] == 0`. -/
def ProcessMfgSetInt8 (cmdId : Nat) (aArgsLength : Nat) (aArgs : List String)
    (minV maxV : Int) (radio : Radio) : MfgResult :=
  if aArgsLength = 2 then
    let setValue := toInt8 (atoi (aArgs.getD 1 ""))
    if minV ≤ setValue ∧ setValue ≤ maxV then
      let b4 := if cmdId = MFG_CMD_GET_SET_TXPOWER then txPowerEncode setValue
                else toUint8 setValue
      let frame := mfgSetFrame cmdId b4
      let resp := radio frame
      if 4 ≤ resp.2 ∧ resp.1.getD 3 0 = 0 then
        { error := .OT_ERROR_NONE, calls := [frame], output := [] }
      else
        { error := .OT_ERROR_FAILED, calls := [frame], output := [] }
    else
      { error := .OT_ERROR_INVALID_ARGS, calls := [], output := [] }
  else
    { error := .OT_ERROR_INVALID_ARGS, calls := [], output := [] }

/-- The `switch (cmdId)` body of `ProcessMfgCommands` (only reached while
the mfg gate is enabled and `aArgsLength > 0`). -/
def mfgDispatch (cmdId : Nat) (aArgs : List String) (radio : Radio) : MfgResult :=
  if cmdId = MFG_CMD_GET_SET_CHANNEL then
    ProcessMfgGetInt8 MFG_CMD_GET_SET_CHANNEL aArgs.length radio
  else if cmdId = MFG_CMD_GET_SET_CHANNEL + 1 then
    ProcessMfgSetInt8 MFG_CMD_GET_SET_CHANNEL aArgs.length aArgs 11 26 radio
  else if cmdId = MFG_CMD_GET_SET_TXPOWER then
    ProcessMfgGetInt8 MFG_CMD_GET_SET_TXPOWER aArgs.length radio
  else if cmdId = MFG_CMD_GET_SET_TXPOWER + 1 then
    ProcessMfgSetInt8 MFG_CMD_GET_SET_TXPOWER aArgs.length aArgs (-20) 22 radio
  else if cmdId = MFG_CMD_CONTINUOUS_TX then
    ProcessMfgSetInt8 MFG_CMD_CONTINUOUS_TX aArgs.length aArgs 0 1 radio
  else if cmdId = MFG_CMD_GET_SET_PAYLOAD_SIZE then
    ProcessMfgGetInt8 MFG_CMD_GET_SET_PAYLOAD_SIZE aArgs.length radio
  else if cmdId = MFG_CMD_GET_SET_PAYLOAD_SIZE + 1 then
    ProcessMfgSetInt8 MFG_CMD_GET_SET_PAYLOAD_SIZE aArgs.length aArgs 17 116 radio
  else if cmdId = MFG_CMD_GET_RX_RESULT then
    (if aArgs.length = 1 then
      let frame := (mfgBaseFrame.set 1 MFG_CMD_GET_RX_RESULT).set 2 MFG_CMD_ACTION_GET
      let resp := radio frame
      if 11 ≤ resp.2 then
        { error := .OT_ERROR_NONE, calls := [frame],
          output := [.rxResult (resp.1.getD 4 0)
            (Nat.lor (resp.1.getD 5 0) (Nat.shiftLeft (resp.1.getD 6 0) 8))
            (Nat.lor (resp.1.getD 7 0) (Nat.shiftLeft (resp.1.getD 8 0) 8))
            (toInt8 (resp.1.getD 9 0)) (resp.1.getD 10 0)] }
      else
        { error := .OT_ERROR_FAILED, calls := [frame], output := [] }
    else { error := .OT_ERROR_INVALID_ARGS, calls := [], output := [] })
  else if cmdId = MFG_CMD_START_RX_TEST then
    (if aArgs.length = 1 then
      -- only payload[1] is assigned; payload[2] keeps its zero fill
      let frame := mfgBaseFrame.set 1 MFG_CMD_START_RX_TEST
      let _ := radio frame
      { error := .OT_ERROR_NONE, calls := [frame], output := [] }
    else { error := .OT_ERROR_INVALID_ARGS, calls := [], output := [] })
  else if cmdId = MFG_CMD_BURST_TX then
    (if aArgs.length = 3 then
      let mode := toUint8 (atoi (aArgs.getD 1 ""))
      let gap := toUint8 (atoi (aArgs.getD 2 ""))
      if mode < 8 ∧ 5 < gap then
        -- payload[1], payload[4], payload[5] assigned; payload[2] stays 0
        let frame := ((mfgBaseFrame.set 1 MFG_CMD_BURST_TX).set 4 mode).set 5 gap
        let _ := radio frame
        { error := .OT_ERROR_NONE, calls := [frame], output := [] }
      else { error := .OT_ERROR_INVALID_ARGS, calls := [], output := [] }
    else { error := .OT_ERROR_INVALID_ARGS, calls := [], output := [] })
  else if cmdId = MFG_CMD_DUTY_CYCLE_TX then
    ProcessMfgSetInt8 MFG_CMD_DUTY_CYCLE_TX aArgs.length aArgs 0 1 radio
  else if cmdId = MFG_CMD_GET_SET_CCA_THRESHOLD then
    ProcessMfgGetInt8 MFG_CMD_GET_SET_CCA_THRESHOLD aArgs.length radio
  else if cmdId = MFG_CMD_GET_SET_CCA_THRESHOLD + 1 then
    ProcessMfgSetInt8 MFG_CMD_GET_SET_CCA_THRESHOLD aArgs.length aArgs (-110) 0 radio
  else if cmdId = MFG_CMD_CONTINOUS_CCA_TEST then
    (if aArgs.length = 3 then
      let p4 := toUint8 (atoi (aArgs.getD 1 ""))  -- enable
      let p5 := toUint8 (atoi (aArgs.getD 2 ""))  -- CCA mode
      if p4 < 2 ∧ p5 < 4 then
        let frame := (((mfgBaseFrame.set 1 MFG_CMD_CONTINOUS_CCA_TEST).set 2
          MFG_CMD_ACTION_SET).set 4 p4).set 5 p5
        let resp := radio frame
        if 4 ≤ resp.2 ∧ resp.1.getD 3 0 = 0 then
          { error := .OT_ERROR_NONE, calls := [frame], output := [] }
        else { error := .OT_ERROR_FAILED, calls := [frame], output := [] }
      else { error := .OT_ERROR_INVALID_ARGS, calls := [], output := [] }
    else { error := .OT_ERROR_INVALID_ARGS, calls := [], output := [] })
  else if cmdId = MFG_CMD_GET_CCA_STATUS then
    ProcessMfgGetInt8 MFG_CMD_GET_CCA_STATUS aArgs.length radio
  else if cmdId = MFG_CMD_CONTINOUS_ED_TEST then
    ProcessMfgSetInt8 MFG_CMD_CONTINOUS_ED_TEST aArgs.length aArgs 0 1 radio
  else if cmdId = MFG_CMD_GET_ED_VALUE then
    ProcessMfgGetInt8 MFG_CMD_GET_ED_VALUE aArgs.length radio
  else if cmdId = MFG_CMD_PHY_TX_TEST_PSDU then
    (if aArgs.length = 4 then
      let count_opt := toUint8 (atoi (aArgs.getD 1 ""))
      let gap := toUint8 (atoi (aArgs.getD 2 ""))
      let ackEnable := toUint8 (atoi (aArgs.getD 3 ""))
      if count_opt < 8 ∧ 5 < gap ∧ ackEnable < 2 then
        let frame := ((((mfgBaseFrame.set 1 MFG_CMD_PHY_TX_TEST_PSDU).set 2
          MFG_CMD_ACTION_SET).set 4 count_opt).set 5 gap).set 6 ackEnable
        let _ := radio frame
        { error := .OT_ERROR_NONE, calls := [frame], output := [] }
      else { error := .OT_ERROR_INVALID_ARGS, calls := [], output := [] }
    else { error := .OT_ERROR_INVALID_ARGS, calls := [], output := [] })
  else if cmdId = MFG_CMD_PHY_RX_TX_ACK_TEST then
    ProcessMfgSetInt8 MFG_CMD_PHY_RX_TX_ACK_TEST aArgs.length aArgs 0 1 radio
  else if cmdId = MFG_CMD_SET_GENERIC_PARAM then
    (if aArgs.length = 5 then
      let panid := toUint16 (strtol16 (aArgs.getD 2 ""))
      let destaddr := toUint16 (strtol16 (aArgs.getD 3 ""))
      let srcaddr := toUint16 (strtol16 (aArgs.getD 4 ""))
      let f1 := (mfgBaseFrame.set 1 MFG_CMD_SET_GENERIC_PARAM).set 2 MFG_CMD_ACTION_SET
      let f2 := (f1.set 4 (toUint8 (atoi (aArgs.getD 1 "")))).set 5 (Nat.land panid 0xFF)
      let f3 := (f2.set 6 (Nat.land (Nat.shiftRight panid 8) 0xFF)).set 7 (Nat.land destaddr 0xFF)
      let f4 := (f3.set 8 (Nat.land (Nat.shiftRight destaddr 8) 0xFF)).set 9 (Nat.land srcaddr 0xFF)
      let frame := f4.set 10 (Nat.land (Nat.shiftRight srcaddr 8) 0xFF)
      let _ := radio frame
      { error := .OT_ERROR_NONE, calls := [frame], output := [] }
    else { error := .OT_ERROR_INVALID_ARGS, calls := [], output := [] })
  else
    { error := .OT_ERROR_NOT_IMPLEMENTED, calls := [], output := [] }

/-- Result of `ProcessMfgCommands`: status, new value of the `mfgEnable`
flag, transport frames sent, CLI output, and whether the raw-passthrough
branch fired. -/
structure MfgCmdResult where
  error : OtError
  mfgEnable : Nat
  calls : List (List Nat)
  output : List CliOut
  rawSent : Bool
  deriving DecidableEq, Repr

/-- The enable/disable toggle condition at the top of `ProcessMfgCommands`:
exactly one argument whose `(uint8_t)atoi` value is 0 or 1. -/
def mfgToggleCond (aArgs : List String) : Prop :=
  aArgs.length = 1 ∧
    (toUint8 (atoi (aArgs.getD 0 "")) = 0 ∨ toUint8 (atoi (aArgs.getD 0 "")) = 1)

instance (aArgs : List String) : Decidable (mfgToggleCond aArgs) := by
  unfold mfgToggleCond; infer_instance

/-- The raw-passthrough frame: all 12 CLI arguments parsed as
`(uint8_t)atoi`. -/
def mfgRawFrame (aArgs : List String) : List Nat :=
  aArgs.map (fun a => toUint8 (atoi a))

/-- `ProcessMfgCommands`: toggle handling, the disabled gate, the opcode
switch, and the trailing error-handling block with raw passthrough. -/
def ProcessMfgCommands (mfgEnable : Nat) (aArgs : List String) (radio : Radio) :
    MfgCmdResult :=
  if mfgToggleCond aArgs then
    { error := .OT_ERROR_NONE, mfgEnable := toUint8 (atoi (aArgs.getD 0 "")),
      calls := [], output := [], rawSent := false }
  else if mfgEnable = 0 then
    { error := .OT_ERROR_NONE, mfgEnable := mfgEnable, calls := [],
      output := [.notEnabled], rawSent := false }
  else
    let base :=
      if 0 < aArgs.length ∧ mfgEnable = 1 then
        mfgDispatch (toUint8 (atoi (aArgs.getD 0 ""))) aArgs radio
      else
        { error := .OT_ERROR_INVALID_ARGS, calls := [], output := [] }
    if base.error = .OT_ERROR_NONE then
      { error := .OT_ERROR_NONE, mfgEnable := mfgEnable, calls := base.calls,
        output := base.output, rawSent := false }
    else if aArgs.length = 12 then
      let frame := mfgRawFrame aArgs
      let resp := radio frame
      { error := .OT_ERROR_NONE, mfgEnable := mfgEnable,
        calls := base.calls ++ [frame],
        output := base.output ++
          [.rawEcho ((List.range resp.2).map (fun i => resp.1.getD i 0))],
        rawSent := true }
    else if base.error = .OT_ERROR_INVALID_ARGS then
      { error := base.error, mfgEnable := mfgEnable, calls := base.calls,
        output := base.output, rawSent := false }
    else if base.error = .OT_ERROR_NOT_IMPLEMENTED then
      { error := base.error, mfgEnable := mfgEnable, calls := base.calls,
        output := base.output ++ [.notImplemented], rawSent := false }
    else
      { error := base.error, mfgEnable := mfgEnable, calls := base.calls,
        output := base.output ++ [.failedMsg], rawSent := false }

/-! ## IR config, TX-power-limit, and EUI-64 handlers -/

/-- Result of a handler that may invoke one platform setter and print
numeric lines: status, the setter argument if the setter was called, and
the printed values. -/
structure SetterResult where
  error : OtError
  setCall : Option Nat
  output : List Nat
  deriving DecidableEq, Repr

/-- `ProcessIRConfig`: one argument with `mode < 4` calls
`otPlatRadioSetIRConfig`; any other argument count falls into the `else`
branch, which performs `otPlatRadioGetIRConfig` (its value is the oracle
`irGetVal`) and prints it. -/
def ProcessIRConfig (aArgs : List String) (irGetVal : Nat) : SetterResult :=
  if aArgs.length = 1 then
    let mode := toUint8 (atoi (aArgs.getD 0 ""))
    if mode < 4 then
      { error := .OT_ERROR_NONE, setCall := some mode, output := [] }
    else
      { error := .OT_ERROR_INVALID_ARGS, setCall := none, output := [] }
  else
    { error := .OT_ERROR_NONE, setCall := none, output := [irGetVal] }

/-- `ProcessGetSetTxPowerLimit`: one argument always calls
`otPlatRadioSetTxPowerLimit` with the parsed byte (the `[1, 44]` range
check in the source only selects a syslog message); zero arguments reads
the limit (oracle `limitGetVal`) and prints it; anything else is invalid
arguments. -/
def ProcessGetSetTxPowerLimit (aArgs : List String) (limitGetVal : Nat) : SetterResult :=
  if aArgs.length = 1 then
    let txPowerLimit := toUint8 (atoi (aArgs.getD 0 ""))
    { error := .OT_ERROR_NONE, setCall := some txPowerLimit, output := [] }
  else if aArgs.length = 0 then
    { error := .OT_ERROR_NONE, setCall := none, output := [limitGetVal] }
  else
    { error := .OT_ERROR_INVALID_ARGS, setCall := none, output := [] }

/-- The 8-iteration two-characters-per-byte parse loop of
`ProcessSetEui64`: each byte is `(hi << 4) | (lo & 0xF)`; the first
non-hex character aborts the whole parse (`OT_ERROR_FAILED`), which is
modelled by returning `none` (no partial byte list survives). -/
def eui64ParsePairs : List Char → Option (List Nat)
  | [] => some []
  | [_] => none
  | c1 :: c2 :: rest =>
    match hexNibble c1, hexNibble c2 with
    | some hi, some lo =>
      (eui64ParsePairs rest).map
        (fun bs => Nat.lor (Nat.shiftLeft hi 4) (Nat.land lo 0xF) :: bs)
    | _, _ => none

/-- `ProcessSetEui64`: requires exactly one argument with `hex[1] == 'x'`
and `strlen == 18`, then parses the 16 characters after the two-character
prefix; on full success it calls `otPlatRadioSetIeeeEui64` (modelled by
the oracle `plat`), whose status becomes the result.  Returns the status
and the byte sequence passed to the platform, if any. -/
def ProcessSetEui64 (plat : List Nat → OtError) (aArgs : List String) :
    OtError × Option (List Nat) :=
  if aArgs.length = 1 then
    let hex := (aArgs.getD 0 "").data
    if hex.getD 1 '\x00' = 'x' ∧ hex.length = 18 then
      match eui64ParsePairs (hex.drop 2) with
      | some bytes => (plat bytes, some bytes)
      | none => (.OT_ERROR_FAILED, none)
    else
      (.OT_ERROR_INVALID_ARGS, none)
  else
    (.OT_ERROR_INVALID_ARGS, none)

/-- Modelled from the spec wording of the claim (for refinement
comparison only): a string "of the exact form `0x` followed by 16
hexadecimal digits". -/
def specEui64Form (s : String) : Bool :=
  s.length = 18 && s.data.getD 0 ' ' = '0' && s.data.getD 1 ' ' = 'x' &&
    (s.data.drop 2).all (fun c => (hexNibble c).isSome)

/-! ## Session-socket state machine -/

/-- The two descriptor fields of the `Daemon` object; `-1` is the C
sentinel for "no socket". -/
structure DaemonState where
  mListenSocket : Int
  mSessionSocket : Int
  deriving DecidableEq, Repr

/-- The environment of one poll tick: the readiness flags reported by the
event loop and the outcomes of the `accept`/`fcntl`/`read` system calls,
treated as oracles. -/
structure TickEnv where
  listenError : Bool
  listenReadable : Bool
  /-- Return value of `accept` (`-1` on failure, else the new fd). -/
  acceptResult : Int
  fcntlGetOk : Bool
  fcntlSetOk : Bool
  sessionError : Bool
  sessionReadable : Bool
  /-- Return value of `read` on the session socket. -/
  readResult : Int
  deriving DecidableEq, Repr

/-- `Daemon::InitializeSessionSocket`: accept one connection; on any
`fcntl` failure close the new descriptor and keep the old session; on
success close the prior session descriptor (if any) and install the new
one.  Returns the new state and the list of descriptors closed. -/
def InitializeSessionSocket (st : DaemonState) (env : TickEnv) :
    DaemonState × List Int :=
  if env.acceptResult = -1 then
    (st, [])
  else if env.fcntlGetOk = false then
    (st, [env.acceptResult])
  else if env.fcntlSetOk = false then
    (st, [env.acceptResult])
  else
    ({ st with mSessionSocket := env.acceptResult },
     if st.mSessionSocket ≠ -1 then [st.mSessionSocket] else [])

/-- `Daemon::Process`: one poll tick.  A listen-descriptor error is fatal
(`DieNow`), modelled as `none`.  Otherwise: a readable listen descriptor
triggers `InitializeSessionSocket`; then a session-descriptor error or a
non-positive `read` closes the session, while a positive `read` leaves the
session open (the line is forwarded to the CLI).  Returns the new state
and every descriptor closed during the tick. -/
def DaemonProcess (st : DaemonState) (env : TickEnv) :
    Option (DaemonState × List Int) :=
  if st.mListenSocket = -1 then
    some (st, [])
  else if env.listenError then
    none
  else
    let acc := if env.listenReadable then InitializeSessionSocket st env else (st, [])
    let st1 := acc.1
    let closed1 := acc.2
    if st1.mSessionSocket = -1 then
      some (st1, closed1)
    else if env.sessionError then
      some ({ st1 with mSessionSocket := -1 }, closed1 ++ [st1.mSessionSocket])
    else if env.sessionReadable then
      if 0 < env.readResult then
        some (st1, closed1)
      else
        some ({ st1 with mSessionSocket := -1 }, closed1 ++ [st1.mSessionSocket])
    else
      some (st1, closed1)

/-! ## Theorems -/

/-- C8 counterexample: `ircfg` with two arguments does not return
invalid-arguments; the `else` branch of `ProcessIRConfig` treats every
argument count other than 1 as a get-and-print and returns
`OT_ERROR_NONE`. -/
theorem ircfg_two_args_counterexample :
    (ProcessIRConfig ["1", "2"] 5).error = .OT_ERROR_NONE ∧
      (ProcessIRConfig ["1", "2"] 5).error ≠ .OT_ERROR_INVALID_ARGS ∧
      (ProcessIRConfig ["1", "2"] 5).output = [5] := by
  decide

/-- C8 (amended): `ProcessIRConfig` with exactly one argument performs the
platform set and succeeds when the parsed mode is below 4, and returns
invalid-arguments with no platform set call when the parsed mode is 4 or
more; with any other argument count (zero, two or more) it performs a
get-and-print and returns success. -/
theorem ircfg_behavior (aArgs : List String) (irGetVal : Nat) :
    (aArgs.length = 1 → toUint8 (atoi (aArgs.getD 0 "")) < 4 →
      ProcessIRConfig aArgs irGetVal =
        { error := .OT_ERROR_NONE,
          setCall := some (toUint8 (atoi (aArgs.getD 0 ""))), output := [] })
  ∧ (aArgs.length = 1 → 4 ≤ toUint8 (atoi (aArgs.getD 0 "")) →
      ProcessIRConfig aArgs irGetVal =
        { error := .OT_ERROR_INVALID_ARGS, setCall := none, output := [] })
  ∧ (aArgs.length ≠ 1 →
      ProcessIRConfig aArgs irGetVal =
        { error := .OT_ERROR_NONE, setCall := none, output := [irGetVal] }) := by
  refine ⟨fun h1 h2 => ?_, fun h1 h2 => ?_, fun h1 => ?_⟩
  · obtain ⟨a, rfl⟩ := List.length_eq_one.mp h1
    simp only [List.getD_cons_zero] at h2
    simp [ProcessIRConfig, h2]
  · obtain ⟨a, rfl⟩ := List.length_eq_one.mp h1
    simp only [List.getD_cons_zero] at h2
    simp [ProcessIRConfig, Nat.not_lt.mpr h2]
  · simp [ProcessIRConfig, h1]

/-- Witness for `ircfg_behavior` at concrete inputs: mode 2 is set, mode 7
is rejected without a set call, and two arguments fall back to
get-and-print. -/
theorem ircfg_behavior_witness :
    ProcessIRConfig ["2"] 0 =
        { error := .OT_ERROR_NONE, setCall := some (toUint8 (atoi "2")), output := [] }
  ∧ ProcessIRConfig ["7"] 0 =
        { error := .OT_ERROR_INVALID_ARGS, setCall := none, output := [] }
  ∧ ProcessIRConfig ["1", "2"] 9 =
        { error := .OT_ERROR_NONE, setCall := none, output := [9] } :=
  ⟨(ircfg_behavior ["2"] 0).1 (by decide) (by decide),
   (ircfg_behavior ["7"] 0).2.1 (by decide) (by decide),
   (ircfg_behavior ["1", "2"] 9).2.2 (by decide)⟩

/-- C7: with exactly one argument, `ProcessGetSetTxPowerLimit` always
invokes `otPlatRadioSetTxPowerLimit` with the parsed byte and returns
success — including for values outside `[1, 44]`, which are forwarded
rather than rejected (the range check in the source only selects a syslog
message). -/
theorem txpwrlimit_forwards_any_value (aArgs : List String) (limitGetVal : Nat)
    (h : aArgs.length = 1) :
    ProcessGetSetTxPowerLimit aArgs limitGetVal =
      { error := .OT_ERROR_NONE,
        setCall := some (toUint8 (atoi (aArgs.getD 0 ""))), output := [] } := by
  simp [ProcessGetSetTxPowerLimit, h]

/-- Witness for `txpwrlimit_forwards_any_value`: the out-of-range value
100 is still forwarded to the platform with a success status. -/
theorem txpwrlimit_forwards_any_value_witness :
    ProcessGetSetTxPowerLimit ["100"] 0 =
        { error := .OT_ERROR_NONE, setCall := some (toUint8 (atoi "100")), output := [] }
  ∧ toUint8 (atoi "100") = 100 ∧ ¬(100 ≤ 44) :=
  ⟨txpwrlimit_forwards_any_value ["100"] 0 (by decide), by decide, by decide⟩

/-- C3: while the mfg gate is disabled (`mfgEnable = 0`), only the
enable/disable toggle (one argument parsing to 0 or 1) is accepted, and it
sets the flag; every other invocation — any opcode, any argument count,
including a 12-argument raw frame — returns `OT_ERROR_NONE`, prints the
"not enabled" message, and makes no transport call. -/
theorem mfg_disabled_only_toggle (aArgs : List String) (radio : Radio) :
    (¬ mfgToggleCond aArgs →
      ProcessMfgCommands 0 aArgs radio =
        { error := .OT_ERROR_NONE, mfgEnable := 0, calls := [],
          output := [.notEnabled], rawSent := false })
  ∧ (mfgToggleCond aArgs →
      ProcessMfgCommands 0 aArgs radio =
        { error := .OT_ERROR_NONE, mfgEnable := toUint8 (atoi (aArgs.getD 0 "")),
          calls := [], output := [], rawSent := false }) := by
  constructor
  · intro h
    simp [ProcessMfgCommands, h]
  · intro h
    simp [ProcessMfgCommands, h]

/-- Witness for `mfg_disabled_only_toggle`: a 12-argument raw frame is
rejected with the "not enabled" message and no transport call while
disabled, and `mfgcmd 1` sets the flag to 1. -/
theorem mfg_disabled_only_toggle_witness :
    ProcessMfgCommands 0 ["33", "2", "9", "0", "0", "0", "0", "0", "0", "0", "0", "0"]
        (fun _ => ([], 0)) =
      { error := .OT_ERROR_NONE, mfgEnable := 0, calls := [],
        output := [.notEnabled], rawSent := false }
  ∧ ProcessMfgCommands 0 ["1"] (fun _ => ([], 0)) =
      { error := .OT_ERROR_NONE, mfgEnable := toUint8 (atoi "1"), calls := [],
        output := [], rawSent := false } :=
  ⟨(mfg_disabled_only_toggle _ _).1 (by decide),
   (mfg_disabled_only_toggle ["1"] _).2 (by decide)⟩

/-- C2: for every integer `v` in `[-20, 22]`, the half-dBm decode after
encode is the identity (`((int8_t)(((uint8_t)v) << 1)) / 2 = v`), and a
TX-power set followed by a get of the stored byte returns exactly `v`:
the set handler accepts `v`, puts `txPowerEncode v` into frame byte 4, and
the get handler prints `v` from a response carrying that byte. -/
theorem txpower_set_get_roundtrip (v : Int) (s : String)
    (h1 : -20 ≤ v) (h2 : v ≤ 22) (hs : toInt8 (atoi s) = v) :
    txPowerDecode (txPowerEncode v) = v
  ∧ (ProcessMfgSetInt8 MFG_CMD_GET_SET_TXPOWER 2 ["settxpower", s] (-20) 22
      (fun _ => ([0, 0, 0, 0], 4))).error = .OT_ERROR_NONE
  ∧ (ProcessMfgSetInt8 MFG_CMD_GET_SET_TXPOWER 2 ["settxpower", s] (-20) 22
      (fun _ => ([0, 0, 0, 0], 4))).calls =
        [mfgSetFrame MFG_CMD_GET_SET_TXPOWER (txPowerEncode v)]
  ∧ (mfgSetFrame MFG_CMD_GET_SET_TXPOWER (txPowerEncode v)).getD 4 0 = txPowerEncode v
  ∧ (ProcessMfgGetInt8 MFG_CMD_GET_SET_TXPOWER 1
      (fun _ => ([0, 0, 0, 0, txPowerEncode v], 5))).output = [.num v] := by
  have hid : txPowerDecode (txPowerEncode v) = v := by
    interval_cases v <;> decide
  refine ⟨hid, ?_, ?_, ?_, ?_⟩
  · simp [ProcessMfgSetInt8, hs, h1, h2]
  · simp [ProcessMfgSetInt8, hs, h1, h2]
  · simp [mfgSetFrame, mfgBaseFrame]
  · simp [ProcessMfgGetInt8, mfgGetFrame, hid]

/-- Witness for `txpower_set_get_roundtrip` at the negative odd value
`-19`. -/
theorem txpower_set_get_roundtrip_witness :
    txPowerDecode (txPowerEncode (-19)) = -19
  ∧ (ProcessMfgSetInt8 MFG_CMD_GET_SET_TXPOWER 2 ["settxpower", "-19"] (-20) 22
      (fun _ => ([0, 0, 0, 0], 4))).error = .OT_ERROR_NONE
  ∧ (ProcessMfgSetInt8 MFG_CMD_GET_SET_TXPOWER 2 ["settxpower", "-19"] (-20) 22
      (fun _ => ([0, 0, 0, 0], 4))).calls =
        [mfgSetFrame MFG_CMD_GET_SET_TXPOWER (txPowerEncode (-19))]
  ∧ (mfgSetFrame MFG_CMD_GET_SET_TXPOWER (txPowerEncode (-19))).getD 4 0 =
      txPowerEncode (-19)
  ∧ (ProcessMfgGetInt8 MFG_CMD_GET_SET_TXPOWER 1
      (fun _ => ([0, 0, 0, 0, txPowerEncode (-19)], 5))).output = [.num (-19)] :=
  txpower_set_get_roundtrip (-19) "-19" (by decide) (by decide) (by decide)

/-- C5: a GET through `ProcessMfgGetInt8` succeeds exactly when the
response has `outputLen >= 5` and status byte 3 equal to 0 — in which case
it prints the decoded signed byte, halved only for the TX-power opcode —
and fails with `OT_ERROR_FAILED` otherwise; a SET ack through
`ProcessMfgSetInt8` (with two arguments and an in-range value) succeeds
exactly when `outputLen >= 4` and status byte 3 equal 0, and fails with
`OT_ERROR_FAILED` otherwise. -/
theorem mfg_response_status_validation (cmdId : Nat) (aArgs : List String)
    (minV maxV : Int) (radio : Radio) :
    ((ProcessMfgGetInt8 cmdId 1 radio).error = .OT_ERROR_NONE ↔
      5 ≤ (radio (mfgGetFrame cmdId)).2 ∧ (radio (mfgGetFrame cmdId)).1.getD 3 0 = 0)
  ∧ (¬(5 ≤ (radio (mfgGetFrame cmdId)).2 ∧ (radio (mfgGetFrame cmdId)).1.getD 3 0 = 0) →
      (ProcessMfgGetInt8 cmdId 1 radio).error = .OT_ERROR_FAILED)
  ∧ (5 ≤ (radio (mfgGetFrame cmdId)).2 ∧ (radio (mfgGetFrame cmdId)).1.getD 3 0 = 0 →
      (ProcessMfgGetInt8 cmdId 1 radio).output =
        [.num (if cmdId = MFG_CMD_GET_SET_TXPOWER then
                 txPowerDecode ((radio (mfgGetFrame cmdId)).1.getD 4 0)
               else toInt8 ((radio (mfgGetFrame cmdId)).1.getD 4 0))])
  ∧ (aArgs.length = 2 → minV ≤ toInt8 (atoi (aArgs.getD 1 "")) →
      toInt8 (atoi (aArgs.getD 1 "")) ≤ maxV →
      ((ProcessMfgSetInt8 cmdId aArgs.length aArgs minV maxV radio).error =
          .OT_ERROR_NONE ↔
        4 ≤ (radio (mfgSetFrame cmdId
              (if cmdId = MFG_CMD_GET_SET_TXPOWER then
                 txPowerEncode (toInt8 (atoi (aArgs.getD 1 "")))
               else toUint8 (toInt8 (atoi (aArgs.getD 1 "")))))).2 ∧
        (radio (mfgSetFrame cmdId
              (if cmdId = MFG_CMD_GET_SET_TXPOWER then
                 txPowerEncode (toInt8 (atoi (aArgs.getD 1 "")))
               else toUint8 (toInt8 (atoi (aArgs.getD 1 "")))))).1.getD 3 0 = 0)) := by
  refine ⟨?_, ?_, ?_, ?_⟩
  · by_cases hr : 5 ≤ (radio (mfgGetFrame cmdId)).2 ∧
      (radio (mfgGetFrame cmdId)).1.getD 3 0 = 0
    · simp only [ProcessMfgGetInt8]
      rw [if_pos trivial, if_pos hr]
      exact iff_of_true rfl hr
    · simp only [ProcessMfgGetInt8]
      rw [if_pos trivial, if_neg hr]
      exact iff_of_false (by simp) hr
  · intro h
    simp only [ProcessMfgGetInt8]
    rw [if_pos trivial, if_neg h]
  · intro h
    simp only [ProcessMfgGetInt8]
    rw [if_pos trivial, if_pos h]
  · intro hl hmin hmax
    simp only [ProcessMfgSetInt8]
    rw [if_pos hl, if_pos ⟨hmin, hmax⟩]
    by_cases hr : 4 ≤ (radio (mfgSetFrame cmdId
        (if cmdId = MFG_CMD_GET_SET_TXPOWER then
           txPowerEncode (toInt8 (atoi (aArgs.getD 1 "")))
         else toUint8 (toInt8 (atoi (aArgs.getD 1 "")))))).2 ∧
      (radio (mfgSetFrame cmdId
        (if cmdId = MFG_CMD_GET_SET_TXPOWER then
           txPowerEncode (toInt8 (atoi (aArgs.getD 1 "")))
         else toUint8 (toInt8 (atoi (aArgs.getD 1 "")))))).1.getD 3 0 = 0
    · rw [if_pos hr]
      exact iff_of_true rfl hr
    · rw [if_neg hr]
      exact iff_of_false (by simp) hr

/-- Helper: when the opcode switch yields invalid-arguments with no
transport call and the argument count is neither 1 nor 12, the whole
`ProcessMfgCommands` run (enabled) returns invalid-arguments with no
transport call and no output. -/
theorem mfgCommands_dispatch_invalid (aArgs : List String) (radio : Radio)
    (hlen : aArgs.length ≠ 1) (hlen12 : aArgs.length ≠ 12) (hpos : 0 < aArgs.length)
    (hd : mfgDispatch (toUint8 (atoi (aArgs.getD 0 ""))) aArgs radio =
      { error := .OT_ERROR_INVALID_ARGS, calls := [], output := [] }) :
    ProcessMfgCommands 1 aArgs radio =
      { error := .OT_ERROR_INVALID_ARGS, mfgEnable := 1, calls := [],
        output := [], rawSent := false } := by
  have ht : ¬ mfgToggleCond aArgs := fun h => hlen h.1
  simp only [ProcessMfgCommands]
  rw [if_neg ht, if_neg (by omega : ¬(1 : Nat) = 0)]
  have hg : 0 < aArgs.length ∧ True := ⟨hpos, trivial⟩
  rw [if_pos hg, hd]
  simp [hlen12]

/-- C4: (a) a two-argument set-int8 whose parsed `int8` value lies outside
`[min, max]` returns invalid-arguments with no transport call; (b)–(d) the
composite commands burst-TX, continuous-CCA-test and PHY-TX-test-PSDU with
the correct argument count but a field outside its documented range return
invalid-arguments from `ProcessMfgCommands` with no transport call. -/
theorem mfg_out_of_range_no_transport :
    (∀ (cmdId : Nat) (aArgs : List String) (minV maxV : Int) (radio : Radio),
      aArgs.length = 2 →
      ¬(minV ≤ toInt8 (atoi (aArgs.getD 1 "")) ∧ toInt8 (atoi (aArgs.getD 1 "")) ≤ maxV) →
      ProcessMfgSetInt8 cmdId aArgs.length aArgs minV maxV radio =
        { error := .OT_ERROR_INVALID_ARGS, calls := [], output := [] })
  ∧ (∀ (a0 a1 a2 : String) (radio : Radio),
      toUint8 (atoi a0) = MFG_CMD_BURST_TX →
      ¬(toUint8 (atoi a1) < 8 ∧ 5 < toUint8 (atoi a2)) →
      ProcessMfgCommands 1 [a0, a1, a2] radio =
        { error := .OT_ERROR_INVALID_ARGS, mfgEnable := 1, calls := [],
          output := [], rawSent := false })
  ∧ (∀ (a0 a1 a2 : String) (radio : Radio),
      toUint8 (atoi a0) = MFG_CMD_CONTINOUS_CCA_TEST →
      ¬(toUint8 (atoi a1) < 2 ∧ toUint8 (atoi a2) < 4) →
      ProcessMfgCommands 1 [a0, a1, a2] radio =
        { error := .OT_ERROR_INVALID_ARGS, mfgEnable := 1, calls := [],
          output := [], rawSent := false })
  ∧ (∀ (a0 a1 a2 a3 : String) (radio : Radio),
      toUint8 (atoi a0) = MFG_CMD_PHY_TX_TEST_PSDU →
      ¬(toUint8 (atoi a1) < 8 ∧ 5 < toUint8 (atoi a2) ∧ toUint8 (atoi a3) < 2) →
      ProcessMfgCommands 1 [a0, a1, a2, a3] radio =
        { error := .OT_ERROR_INVALID_ARGS, mfgEnable := 1, calls := [],
          output := [], rawSent := false }) := by
  refine ⟨?_, ?_, ?_, ?_⟩
  · intro cmdId aArgs minV maxV radio hl hr
    simp only [ProcessMfgSetInt8]
    rw [if_pos hl, if_neg hr]
  · intro a0 a1 a2 radio h0 hr
    refine mfgCommands_dispatch_invalid _ _ (by simp) (by simp) (by simp) ?_
    rw [show ([a0, a1, a2] : List String).getD 0 "" = a0 from rfl, h0]
    simp only [mfgDispatch, MFG_CMD_GET_SET_CHANNEL, MFG_CMD_GET_SET_TXPOWER,
      MFG_CMD_CONTINUOUS_TX, MFG_CMD_GET_SET_PAYLOAD_SIZE, MFG_CMD_GET_RX_RESULT,
      MFG_CMD_START_RX_TEST, MFG_CMD_BURST_TX, MFG_CMD_DUTY_CYCLE_TX,
      MFG_CMD_GET_SET_CCA_THRESHOLD, MFG_CMD_CONTINOUS_CCA_TEST, MFG_CMD_GET_CCA_STATUS,
      MFG_CMD_CONTINOUS_ED_TEST, MFG_CMD_GET_ED_VALUE, MFG_CMD_PHY_TX_TEST_PSDU,
      MFG_CMD_PHY_RX_TX_ACK_TEST, MFG_CMD_SET_GENERIC_PARAM]
    norm_num [hr]
  · intro a0 a1 a2 radio h0 hr
    refine mfgCommands_dispatch_invalid _ _ (by simp) (by simp) (by simp) ?_
    rw [show ([a0, a1, a2] : List String).getD 0 "" = a0 from rfl, h0]
    simp only [mfgDispatch, MFG_CMD_GET_SET_CHANNEL, MFG_CMD_GET_SET_TXPOWER,
      MFG_CMD_CONTINUOUS_TX, MFG_CMD_GET_SET_PAYLOAD_SIZE, MFG_CMD_GET_RX_RESULT,
      MFG_CMD_START_RX_TEST, MFG_CMD_BURST_TX, MFG_CMD_DUTY_CYCLE_TX,
      MFG_CMD_GET_SET_CCA_THRESHOLD, MFG_CMD_CONTINOUS_CCA_TEST, MFG_CMD_GET_CCA_STATUS,
      MFG_CMD_CONTINOUS_ED_TEST, MFG_CMD_GET_ED_VALUE, MFG_CMD_PHY_TX_TEST_PSDU,
      MFG_CMD_PHY_RX_TX_ACK_TEST, MFG_CMD_SET_GENERIC_PARAM]
    norm_num [hr]
  · intro a0 a1 a2 a3 radio h0 hr
    refine mfgCommands_dispatch_invalid _ _ (by simp) (by simp) (by simp) ?_
    rw [show ([a0, a1, a2, a3] : List String).getD 0 "" = a0 from rfl, h0]
    simp only [mfgDispatch, MFG_CMD_GET_SET_CHANNEL, MFG_CMD_GET_SET_TXPOWER,
      MFG_CMD_CONTINUOUS_TX, MFG_CMD_GET_SET_PAYLOAD_SIZE, MFG_CMD_GET_RX_RESULT,
      MFG_CMD_START_RX_TEST, MFG_CMD_BURST_TX, MFG_CMD_DUTY_CYCLE_TX,
      MFG_CMD_GET_SET_CCA_THRESHOLD, MFG_CMD_CONTINOUS_CCA_TEST, MFG_CMD_GET_CCA_STATUS,
      MFG_CMD_CONTINOUS_ED_TEST, MFG_CMD_GET_ED_VALUE, MFG_CMD_PHY_TX_TEST_PSDU,
      MFG_CMD_PHY_RX_TX_ACK_TEST, MFG_CMD_SET_GENERIC_PARAM]
    norm_num [hr]

/-- Witness for `mfg_out_of_range_no_transport`: set-channel with value 30
(above 26), burst-TX with mode 9, continuous-CCA-test with CCA mode 5, and
PHY-TX-test-PSDU with gap 4 are all rejected with no transport call. -/
theorem mfg_out_of_range_no_transport_witness :
    ProcessMfgSetInt8 12 (["12", "30"] : List String).length ["12", "30"] 11 26
        (fun _ => ([], 0)) =
      { error := .OT_ERROR_INVALID_ARGS, calls := [], output := [] }
  ∧ ProcessMfgCommands 1 ["33", "9", "10"] (fun _ => ([], 0)) =
      { error := .OT_ERROR_INVALID_ARGS, mfgEnable := 1, calls := [],
        output := [], rawSent := false }
  ∧ ProcessMfgCommands 1 ["49", "1", "5"] (fun _ => ([], 0)) =
      { error := .OT_ERROR_INVALID_ARGS, mfgEnable := 1, calls := [],
        output := [], rawSent := false }
  ∧ ProcessMfgCommands 1 ["57", "1", "4", "0"] (fun _ => ([], 0)) =
      { error := .OT_ERROR_INVALID_ARGS, mfgEnable := 1, calls := [],
        output := [], rawSent := false } :=
  ⟨mfg_out_of_range_no_transport.1 12 ["12", "30"] 11 26 (fun _ => ([], 0))
     (by decide) (by decide),
   mfg_out_of_range_no_transport.2.1 "33" "9" "10" (fun _ => ([], 0))
     (by decide) (by decide),
   mfg_out_of_range_no_transport.2.2.1 "49" "1" "5" (fun _ => ([], 0))
     (by decide) (by decide),
   mfg_out_of_range_no_transport.2.2.2 "57" "1" "4" "0" (fun _ => ([], 0))
     (by decide) (by decide)⟩

/-- The set of opcodes that match a case of the dispatch switch. -/
def mfgKnownOpcode (c : Nat) : Prop :=
  c = MFG_CMD_GET_SET_CHANNEL ∨ c = MFG_CMD_GET_SET_CHANNEL + 1 ∨
  c = MFG_CMD_GET_SET_TXPOWER ∨ c = MFG_CMD_GET_SET_TXPOWER + 1 ∨
  c = MFG_CMD_CONTINUOUS_TX ∨ c = MFG_CMD_GET_SET_PAYLOAD_SIZE ∨
  c = MFG_CMD_GET_SET_PAYLOAD_SIZE + 1 ∨ c = MFG_CMD_GET_RX_RESULT ∨
  c = MFG_CMD_START_RX_TEST ∨ c = MFG_CMD_BURST_TX ∨ c = MFG_CMD_DUTY_CYCLE_TX ∨
  c = MFG_CMD_GET_SET_CCA_THRESHOLD ∨ c = MFG_CMD_GET_SET_CCA_THRESHOLD + 1 ∨
  c = MFG_CMD_CONTINOUS_CCA_TEST ∨ c = MFG_CMD_GET_CCA_STATUS ∨
  c = MFG_CMD_CONTINOUS_ED_TEST ∨ c = MFG_CMD_GET_ED_VALUE ∨
  c = MFG_CMD_PHY_TX_TEST_PSDU ∨ c = MFG_CMD_PHY_RX_TX_ACK_TEST ∨
  c = MFG_CMD_SET_GENERIC_PARAM

instance (c : Nat) : Decidable (mfgKnownOpcode c) := by
  unfold mfgKnownOpcode; infer_instance

/-- Helper: an opcode matching no case of the switch falls to the
`default` branch: `OT_ERROR_NOT_IMPLEMENTED`, no transport call. -/
theorem mfgDispatch_unknown (c : Nat) (aArgs : List String) (radio : Radio)
    (h : ¬ mfgKnownOpcode c) :
    mfgDispatch c aArgs radio =
      { error := .OT_ERROR_NOT_IMPLEMENTED, calls := [], output := [] } := by
  unfold mfgKnownOpcode at h
  push_neg at h
  obtain ⟨h1, h2, h3, h4, h5, h6, h7, h8, h9, h10, h11, h12, h13, h14, h15,
    h16, h17, h18, h19, h20⟩ := h
  unfold mfgDispatch
  rw [if_neg h1, if_neg h2, if_neg h3, if_neg h4, if_neg h5, if_neg h6,
    if_neg h7, if_neg h8, if_neg h9, if_neg h10, if_neg h11, if_neg h12,
    if_neg h13, if_neg h14, if_neg h15, if_neg h16, if_neg h17, if_neg h18,
    if_neg h19, if_neg h20]

/-- C6: while enabled, an opcode matching no case of the dispatch switch,
given exactly 12 arguments, sends the 12 parsed argument bytes verbatim as
the transport frame with no range validation, echoes the raw response
bytes to the CLI, and returns success. -/
theorem mfg_raw_passthrough_unknown_opcode (aArgs : List String) (radio : Radio)
    (h12 : aArgs.length = 12)
    (hu : ¬ mfgKnownOpcode (toUint8 (atoi (aArgs.getD 0 "")))) :
    ProcessMfgCommands 1 aArgs radio =
      { error := .OT_ERROR_NONE, mfgEnable := 1,
        calls := [mfgRawFrame aArgs],
        output := [.rawEcho ((List.range (radio (mfgRawFrame aArgs)).2).map
          (fun i => (radio (mfgRawFrame aArgs)).1.getD i 0))],
        rawSent := true } := by
  have ht : ¬ mfgToggleCond aArgs := fun h => by
    have := h.1
    omega
  simp only [ProcessMfgCommands]
  rw [if_neg ht, if_neg (by omega : ¬(1 : Nat) = 0)]
  have hg : 0 < aArgs.length ∧ True := ⟨by omega, trivial⟩
  rw [if_pos hg, mfgDispatch_unknown _ _ _ hu]
  simp [h12]

/-- Witness for `mfg_raw_passthrough_unknown_opcode`: opcode 99 with 12
arguments is sent verbatim and the two response bytes are echoed. -/
theorem mfg_raw_passthrough_unknown_opcode_witness :
    ProcessMfgCommands 1 ["99", "1", "2", "3", "4", "5", "6", "7", "8", "9", "10", "11"]
        (fun _ => ([7, 8, 9], 2)) =
      { error := .OT_ERROR_NONE, mfgEnable := 1,
        calls := [mfgRawFrame ["99", "1", "2", "3", "4", "5", "6", "7", "8", "9", "10", "11"]],
        output := [.rawEcho ((List.range ((fun (_ : List Nat) => (([7, 8, 9] : List Nat), 2))
            (mfgRawFrame ["99", "1", "2", "3", "4", "5", "6", "7", "8", "9", "10", "11"])).2).map
          (fun i => ((fun (_ : List Nat) => (([7, 8, 9] : List Nat), 2))
            (mfgRawFrame ["99", "1", "2", "3", "4", "5", "6", "7", "8", "9", "10", "11"])).1.getD i 0))],
        rawSent := true } :=
  mfg_raw_passthrough_unknown_opcode
    ["99", "1", "2", "3", "4", "5", "6", "7", "8", "9", "10", "11"]
    (fun _ => ([7, 8, 9], 2)) (by decide) (by decide)

/-- C10: with the enable flag at 1, the raw-passthrough branch of
`ProcessMfgCommands` fires exactly when the argument count is 12 and the
dispatch result is not success — the condition is not restricted to
unrecognized opcodes.  In particular a recognized get opcode (channel,
0x0b) invoked with 12 arguments, whose handler returns invalid-arguments
without sending, still triggers the verbatim unvalidated send of the 12
parsed bytes, the raw echo, and an overall success result. -/
theorem mfg_raw_passthrough_trigger (aArgs : List String) (radio : Radio) :
    ((ProcessMfgCommands 1 aArgs radio).rawSent = true ↔
      aArgs.length = 12 ∧
        (mfgDispatch (toUint8 (atoi (aArgs.getD 0 ""))) aArgs radio).error ≠
          .OT_ERROR_NONE)
  ∧ (aArgs.length = 12 →
      toUint8 (atoi (aArgs.getD 0 "")) = MFG_CMD_GET_SET_CHANNEL →
      ProcessMfgCommands 1 aArgs radio =
        { error := .OT_ERROR_NONE, mfgEnable := 1,
          calls := [mfgRawFrame aArgs],
          output := [.rawEcho ((List.range (radio (mfgRawFrame aArgs)).2).map
            (fun i => (radio (mfgRawFrame aArgs)).1.getD i 0))],
          rawSent := true }) := by
  constructor
  · by_cases ht : mfgToggleCond aArgs
    · have hlen1 := ht.1
      have hL : (ProcessMfgCommands 1 aArgs radio).rawSent = false := by
        simp only [ProcessMfgCommands]
        rw [if_pos ht]
      rw [hL]
      refine iff_of_false (by simp) (fun hc => by omega)
    · simp only [ProcessMfgCommands]
      rw [if_neg ht, if_neg (by omega : ¬(1 : Nat) = 0)]
      by_cases hpos : 0 < aArgs.length
      · have hg : 0 < aArgs.length ∧ True := ⟨hpos, trivial⟩
        rw [if_pos hg]
        by_cases he : (mfgDispatch (toUint8 (atoi (aArgs.getD 0 ""))) aArgs radio).error =
            .OT_ERROR_NONE
        · rw [if_pos he]
          refine iff_of_false (by simp) (fun hc => hc.2 he)
        · rw [if_neg he]
          by_cases h12 : aArgs.length = 12
          · rw [if_pos h12]
            exact iff_of_true rfl ⟨h12, he⟩
          · rw [if_neg h12]
            refine iff_of_false ?_ (fun hc => h12 hc.1)
            split
            · simp
            · split
              · simp
              · simp
      · have h0 : aArgs.length = 0 := by omega
        rw [if_neg (fun hc : 0 < aArgs.length ∧ True => hpos hc.1)]
        simp [h0]
  · intro h12 h0
    have ht : ¬ mfgToggleCond aArgs := fun h => by
      have := h.1
      omega
    have hne : ¬ aArgs.length = 1 := by omega
    have hd : mfgDispatch MFG_CMD_GET_SET_CHANNEL aArgs radio =
        { error := .OT_ERROR_INVALID_ARGS, calls := [], output := [] } := by
      simp [mfgDispatch, ProcessMfgGetInt8, hne]
    simp only [ProcessMfgCommands]
    rw [if_neg ht, if_neg (by omega : ¬(1 : Nat) = 0)]
    have hg : 0 < aArgs.length ∧ True := ⟨by omega, trivial⟩
    rw [if_pos hg, h0, hd]
    simp [h12]

/-- Witness for `mfg_raw_passthrough_trigger`: the recognized get-channel
opcode (11) with 12 arguments triggers the verbatim raw send and overall
success. -/
theorem mfg_raw_passthrough_trigger_witness :
    ProcessMfgCommands 1 ["11", "1", "2", "3", "4", "5", "6", "7", "8", "9", "10", "11"]
        (fun _ => ([1, 2, 3, 4, 5], 3)) =
      { error := .OT_ERROR_NONE, mfgEnable := 1,
        calls := [mfgRawFrame ["11", "1", "2", "3", "4", "5", "6", "7", "8", "9", "10", "11"]],
        output := [.rawEcho ((List.range ((fun (_ : List Nat) => (([1, 2, 3, 4, 5] : List Nat), 3))
            (mfgRawFrame ["11", "1", "2", "3", "4", "5", "6", "7", "8", "9", "10", "11"])).2).map
          (fun i => ((fun (_ : List Nat) => (([1, 2, 3, 4, 5] : List Nat), 3))
            (mfgRawFrame ["11", "1", "2", "3", "4", "5", "6", "7", "8", "9", "10", "11"])).1.getD i 0))],
        rawSent := true } :=
  (mfg_raw_passthrough_trigger
    ["11", "1", "2", "3", "4", "5", "6", "7", "8", "9", "10", "11"]
    (fun _ => ([1, 2, 3, 4, 5], 3))).2 (by decide) (by decide)

/-- C1 counterexample: the argument `"Ax0123456789abcdef"` is not of the
form `0x` + 16 hex digits (its first character is `A`), yet
`ProcessSetEui64` invokes the platform setter on it with a success status:
the code only checks that the second character is `x` and the length is
18, never the first character. -/
theorem seteui64_claim_counterexample :
    specEui64Form "Ax0123456789abcdef" = false
  ∧ ((ProcessSetEui64 (fun _ => .OT_ERROR_NONE) ["Ax0123456789abcdef"]).2).isSome = true
  ∧ (ProcessSetEui64 (fun _ => .OT_ERROR_NONE) ["Ax0123456789abcdef"]).1 =
      .OT_ERROR_NONE := by
  decide

/-- C1 (amended): the platform setter is invoked iff there is exactly one
argument, of length 18, whose second character is `x` and whose 16
characters after the two-character prefix all parse as hex digits — the
first character is never checked; every run that makes no platform call
returns `OT_ERROR_INVALID_ARGS` (wrong count, length or `x` check) or
`OT_ERROR_FAILED` (a non-hex digit), so no partial state is ever applied. -/
theorem seteui64_platform_call_characterization (plat : List Nat → OtError)
    (aArgs : List String) :
    ((ProcessSetEui64 plat aArgs).2 ≠ none ↔
      aArgs.length = 1 ∧ (aArgs.getD 0 "").data.getD 1 '\x00' = 'x' ∧
        (aArgs.getD 0 "").data.length = 18 ∧
        (eui64ParsePairs ((aArgs.getD 0 "").data.drop 2)).isSome = true)
  ∧ ((ProcessSetEui64 plat aArgs).2 = none →
      (ProcessSetEui64 plat aArgs).1 = .OT_ERROR_INVALID_ARGS ∨
        (ProcessSetEui64 plat aArgs).1 = .OT_ERROR_FAILED) := by
  constructor
  · by_cases hl : aArgs.length = 1
    · simp only [ProcessSetEui64]
      rw [if_pos hl]
      by_cases hc : (aArgs.getD 0 "").data.getD 1 '\x00' = 'x' ∧
          (aArgs.getD 0 "").data.length = 18
      · rw [if_pos hc]
        cases hp : eui64ParsePairs ((aArgs.getD 0 "").data.drop 2) with
        | none =>
          refine iff_of_false (by simp) ?_
          rintro ⟨-, -, -, hs⟩
          simp at hs
        | some bs =>
          exact iff_of_true (by simp) ⟨hl, hc.1, hc.2, rfl⟩
      · rw [if_neg hc]
        refine iff_of_false (by simp) ?_
        rintro ⟨-, h1, h2, -⟩
        exact hc ⟨h1, h2⟩
    · simp only [ProcessSetEui64]
      rw [if_neg hl]
      exact iff_of_false (by simp) (fun hc => hl hc.1)
  · intro hnone
    by_cases hl : aArgs.length = 1
    · simp only [ProcessSetEui64] at hnone ⊢
      rw [if_pos hl] at hnone ⊢
      by_cases hc : (aArgs.getD 0 "").data.getD 1 '\x00' = 'x' ∧
          (aArgs.getD 0 "").data.length = 18
      · rw [if_pos hc] at hnone ⊢
        cases hp : eui64ParsePairs ((aArgs.getD 0 "").data.drop 2) with
        | none =>
          right
          rfl
        | some bs =>
          rw [hp] at hnone
          simp at hnone
      · rw [if_neg hc] at hnone ⊢
        left
        rfl
    · simp only [ProcessSetEui64]
      rw [if_neg hl]
      left
      rfl

/-- Witness for `seteui64_platform_call_characterization`: the well-formed
string `0x0011223344556677` does reach the platform setter. -/
theorem seteui64_platform_call_characterization_witness :
    (ProcessSetEui64 (fun _ => .OT_ERROR_NONE) ["0x0011223344556677"]).2 ≠ none :=
  (seteui64_platform_call_characterization (fun _ => .OT_ERROR_NONE)
    ["0x0011223344556677"]).1.mpr (by decide)

/-- Helper: descriptor accounting for `InitializeSessionSocket` — every
non-sentinel descriptor that was the live session before the call or was
returned by `accept` ends up either as the (unique) current session
descriptor or in the closed list. -/
theorem initSession_account (st : DaemonState) (env : TickEnv) (fd : Int)
    (hfd : fd ≠ -1)
    (hsrc : st.mSessionSocket = fd ∨ env.acceptResult = fd) :
    (InitializeSessionSocket st env).1.mSessionSocket = fd ∨
      fd ∈ (InitializeSessionSocket st env).2 := by
  simp only [InitializeSessionSocket]
  by_cases ha : env.acceptResult = -1
  · rw [if_pos ha]
    rcases hsrc with h | h
    · exact Or.inl h
    · exact absurd (h.symm.trans ha) hfd
  · rw [if_neg ha]
    by_cases hg : env.fcntlGetOk = false
    · rw [if_pos hg]
      rcases hsrc with h | h
      · exact Or.inl h
      · exact Or.inr (by simp [h])
    · rw [if_neg hg]
      by_cases hs2 : env.fcntlSetOk = false
      · rw [if_pos hs2]
        rcases hsrc with h | h
        · exact Or.inl h
        · exact Or.inr (by simp [h])
      · rw [if_neg hs2]
        rcases hsrc with h | h
        · right
          have hne : st.mSessionSocket ≠ -1 := fun hc => hfd (h.symm.trans hc)
          rw [if_pos hne]
          simp [h]
        · left
          simp [h]

/-- C9: the session server holds at most one live client connection.
Part 1 (latest wins): when `accept` succeeds and both `fcntl` calls
succeed while a prior session descriptor exists, `InitializeSessionSocket`
closes the prior descriptor and installs the new one, with no error
surfaced.  Part 2 (per-tick accounting): after every non-fatal
`Daemon::Process` tick, every non-sentinel descriptor that was live before
the tick or was accepted during it is either the unique current session
descriptor of the new state or has been closed — so zero or one session
descriptor is live after every tick. -/
theorem session_single_client_latest_wins :
    (∀ (st : DaemonState) (env : TickEnv),
      st.mSessionSocket ≠ -1 → env.acceptResult ≠ -1 →
      env.fcntlGetOk = true → env.fcntlSetOk = true →
      InitializeSessionSocket st env =
        ({ st with mSessionSocket := env.acceptResult }, [st.mSessionSocket]))
  ∧ (∀ (st : DaemonState) (env : TickEnv) (st2 : DaemonState) (closed : List Int),
      DaemonProcess st env = some (st2, closed) →
      ∀ fd : Int, fd ≠ -1 →
        (st.mSessionSocket = fd ∨
          (st.mListenSocket ≠ -1 ∧ env.listenError = false ∧
            env.listenReadable = true ∧ env.acceptResult = fd)) →
        st2.mSessionSocket = fd ∨ fd ∈ closed) := by
  constructor
  · intro st env hs hacc hg hset
    simp only [InitializeSessionSocket]
    rw [if_neg hacc, hg, hset]
    simp [hs]
  · intro st env st2 closed hp fd hfd hsrc
    unfold DaemonProcess at hp
    by_cases hL : st.mListenSocket = -1
    · rw [if_pos hL] at hp
      simp only [Option.some.injEq, Prod.mk.injEq] at hp
      obtain ⟨h1, h2⟩ := hp
      subst h1
      subst h2
      rcases hsrc with h | h
      · exact Or.inl h
      · exact absurd hL h.1
    · rw [if_neg hL] at hp
      by_cases hE : env.listenError = true
      · rw [if_pos hE] at hp
        exact absurd hp (by simp)
      · rw [if_neg hE] at hp
        dsimp only at hp
        set P : DaemonState × List Int :=
          if env.listenReadable = true then InitializeSessionSocket st env
          else (st, []) with hP
        have hacc2 : P.1.mSessionSocket = fd ∨ fd ∈ P.2 := by
          rw [hP]
          by_cases hR : env.listenReadable = true
          · rw [if_pos hR]
            rcases hsrc with h | h
            · exact initSession_account st env fd hfd (Or.inl h)
            · exact initSession_account st env fd hfd (Or.inr h.2.2.2)
          · rw [if_neg hR]
            rcases hsrc with h | h
            · exact Or.inl h
            · exact absurd h.2.2.1 hR
        by_cases h1 : P.1.mSessionSocket = -1
        · rw [if_pos h1] at hp
          simp only [Option.some.injEq, Prod.mk.injEq] at hp
          obtain ⟨h2, h3⟩ := hp
          subst h2
          subst h3
          rcases hacc2 with h | h
          · exact absurd (h.symm.trans h1) hfd
          · exact Or.inr h
        · rw [if_neg h1] at hp
          by_cases h2 : env.sessionError = true
          · rw [if_pos h2] at hp
            simp only [Option.some.injEq, Prod.mk.injEq] at hp
            obtain ⟨h3, h4⟩ := hp
            subst h3
            subst h4
            rcases hacc2 with h | h
            · exact Or.inr (by simp [h])
            · exact Or.inr (by simp [h])
          · rw [if_neg h2] at hp
            by_cases h3 : env.sessionReadable = true
            · rw [if_pos h3] at hp
              by_cases h4 : 0 < env.readResult
              · rw [if_pos h4] at hp
                simp only [Option.some.injEq, Prod.mk.injEq] at hp
                obtain ⟨h5, h6⟩ := hp
                subst h5
                subst h6
                exact hacc2
              · rw [if_neg h4] at hp
                simp only [Option.some.injEq, Prod.mk.injEq] at hp
                obtain ⟨h5, h6⟩ := hp
                subst h5
                subst h6
                rcases hacc2 with h | h
                · exact Or.inr (by simp [h])
                · exact Or.inr (by simp [h])
            · rw [if_neg h3] at hp
              simp only [Option.some.injEq, Prod.mk.injEq] at hp
              obtain ⟨h5, h6⟩ := hp
              subst h5
              subst h6
              exact hacc2

/-- Witness for `session_single_client_latest_wins`: with listen fd 3 and
live session fd 5, accepting fd 7 closes 5 and installs 7; the accounting
part applied to that tick places fd 5 in the closed list. -/
theorem session_single_client_latest_wins_witness :
    InitializeSessionSocket ⟨3, 5⟩ ⟨false, true, 7, true, true, false, false, 0⟩ =
      ({ mListenSocket := 3, mSessionSocket := 7 }, [5])
  ∧ ((⟨3, 7⟩ : DaemonState).mSessionSocket = 5 ∨ (5 : Int) ∈ [(5 : Int)]) :=
  ⟨session_single_client_latest_wins.1 ⟨3, 5⟩ ⟨false, true, 7, true, true, false, false, 0⟩
     (by decide) (by decide) (by decide) (by decide),
   session_single_client_latest_wins.2 ⟨3, 5⟩ ⟨false, true, 7, true, true, false, false, 0⟩
     ⟨3, 7⟩ [5] (by decide) 5 (by decide) (Or.inl (by decide))⟩

/-- Witness for `mfg_response_status_validation`: a GET response with a
non-zero status byte fails; a TX-power GET response carrying byte 40
prints 20; an in-range CCA-threshold SET with a clean 4-byte ack
succeeds. -/
theorem mfg_response_status_validation_witness :
    ((ProcessMfgGetInt8 11 1 (fun _ => ([0, 0, 0, 1, 50], 5))).error = .OT_ERROR_FAILED)
  ∧ ((ProcessMfgGetInt8 15 1 (fun _ => ([0, 0, 0, 0, 40], 5))).output = [.num 20])
  ∧ ((ProcessMfgSetInt8 48 (["48", "-5"] : List String).length ["48", "-5"] (-110) 0
        (fun _ => ([0, 0, 0, 0], 4))).error = .OT_ERROR_NONE) :=
  ⟨(mfg_response_status_validation 11 [] 0 0 (fun _ => ([0, 0, 0, 1, 50], 5))).2.1
     (by decide),
   (mfg_response_status_validation 15 [] 0 0 (fun _ => ([0, 0, 0, 0, 40], 5))).2.2.1
     (by decide),
   ((mfg_response_status_validation 48 ["48", "-5"] (-110) 0
       (fun _ => ([0, 0, 0, 0], 4))).2.2.2 (by decide) (by decide) (by decide)).mpr
     (by decide)⟩
